import Mathlib

/-!
# envtest (k3s): Start / Stop of the container-backed test environment

Shallow embedding of `envtest.go`.  The program is an orchestration of calls to
systems that live outside the file (the container engine client, the port
library, the two package helpers `getContainerPort` and `waitForCluster`, and
the CRD installer).  Those are embedded as a record `Outside` of reply
functions; `Start` and `Stop` thread an explicit `Engine` state that holds the
log of calls issued so far and the set of containers that exist.
-/

namespace Envtest

/-! ## Constants (envtest.go, lines 18-25) -/

/-- DefaultImage which will be used if none is provided. -/
def DefaultImage : String := "docker.io/rancher/k3s:v0.4.0"

/-- InsecurePort assigned to the K3s cluster. -/
def InsecurePort : String := "8080"

/-- BindAddress assigned to the K3s cluster. -/
def BindAddress : String := "0.0.0.0"

/-- One second of `time.Duration`, counted in nanoseconds. -/
def Second : Nat := 1000000000

/-! ## Data model -/

/-- A Go `error` value, identified by its message. -/
structure Error where
  msg : String
  deriving DecidableEq, Repr

/-- The type `nat.Port` is a string type in the port library. -/
abbrev Port := String

/-- A `nat.PortBinding`: host address and host port, both strings. -/
structure PortBinding where
  HostIP : String := ""
  HostPort : String := ""
  deriving DecidableEq, Repr

/-- A `nat.PortSet` (Go map with empty values): the list of its keys. -/
abbrev PortSet := List Port

/-- A `nat.PortMap` (Go map from port to bindings): the list of its entries. -/
abbrev PortMap := List (Port × List PortBinding)

/-- The fields of `container.Config` that `Start` sets. -/
structure Config where
  Image : String := ""
  Cmd : List String := []
  ExposedPorts : PortSet := []
  deriving DecidableEq, Repr

/-- The fields of `container.HostConfig` that `Start` sets. -/
structure HostConfig where
  Privileged : Bool := false
  PortBindings : PortMap := []
  deriving DecidableEq, Repr

/-- A `network.NetworkingConfig`; `Start` only ever passes a nil pointer. -/
structure NetworkingConfig where
  deriving DecidableEq, Repr

/-- The part of `types.NetworkSettings` that `Start` reads. -/
structure NetworkSettings where
  Ports : PortMap := []
  deriving DecidableEq, Repr

/-- The part of `types.ContainerJSON` that `Start` reads.  A successful inspect
reply is taken to carry its network settings. -/
structure ContainerJSON where
  NetworkSettings : NetworkSettings := {}
  deriving DecidableEq, Repr

/-- The options of `types.ContainerRemoveOptions`. -/
structure ContainerRemoveOptions where
  RemoveVolumes : Bool := false
  RemoveLinks : Bool := false
  Force : Bool := false
  deriving DecidableEq, Repr

/-- The field of `rest.Config` that `Start` sets. -/
structure RestConfig where
  Host : String := ""
  deriving DecidableEq, Repr

/-- The field of `envtest.CRDInstallOptions` that `Start` sets. -/
structure CRDInstallOptions where
  Paths : List String := []
  deriving DecidableEq, Repr

/-- Environment which will back the Kubebuilder testsuite. -/
structure Environment where
  /-- Image which will be used for spinning up K3s. -/
  Image : String := ""
  /-- CRDDirectoryPaths for preloading CustomResourceDefinitions. -/
  CRDDirectoryPaths : List String := []
  /-- Internal container identifier. -/
  id : String := ""
  deriving DecidableEq, Repr

/-! ## The outside world -/

/-- One call that leaves `envtest.go`, with the arguments it carries. -/
inductive Call where
  | newEnvClient
  | imagePull (ref : String)
  | newPort (proto port : String)
  | containerCreate (config : Config) (hostConfig : HostConfig)
      (networking : Option NetworkingConfig) (name : String)
  | containerStart (id : String)
  | containerInspect (id : String)
  | getContainerPort (ports : PortMap) (port : Port)
  | waitForCluster (url : String) (attempts : Nat) (interval : Nat)
  | installCRDs (config : RestConfig) (options : CRDInstallOptions)
  | println (operands : List String)
  | containerStop (id : String) (timeout : Option Nat)
  | containerRemove (id : String) (options : ContainerRemoveOptions)
  deriving DecidableEq, Repr

/-- The kind of a call, forgetting its arguments. -/
inductive Kind where
  | connect | pull | portSpec | create | start | inspect | resolve | ready
  | install | print | stop | remove
  deriving DecidableEq, Repr

/-- The kind of each call. -/
def Call.kind : Call → Kind
  | .newEnvClient => .connect
  | .imagePull _ => .pull
  | .newPort _ _ => .portSpec
  | .containerCreate _ _ _ _ => .create
  | .containerStart _ => .start
  | .containerInspect _ => .inspect
  | .getContainerPort _ _ => .resolve
  | .waitForCluster _ _ _ => .ready
  | .installCRDs _ _ => .install
  | .println _ => .print
  | .containerStop _ _ => .stop
  | .containerRemove _ _ => .remove

/-- The replies of everything `envtest.go` calls but does not define, as
functions of the arguments of the call.  `none` is a nil error. -/
structure Outside where
  /-- Reply of `client.NewEnvClient()`. -/
  newEnvClient : Option Error
  /-- Reply of `cli.ImagePull(ctx, ref, opts)`. -/
  imagePull : String → Option Error
  /-- Reply of `nat.NewPort(proto, port)`. -/
  newPort : String → String → Except Error Port
  /-- Reply of `cli.ContainerCreate(ctx, config, hostConfig, networking, name)`:
  the identifier of the new container. -/
  containerCreate : Config → HostConfig → Option NetworkingConfig → String → Except Error String
  /-- Reply of `cli.ContainerStart(ctx, id, opts)`. -/
  containerStart : String → Option Error
  /-- Reply of `cli.ContainerInspect(ctx, id)`. -/
  containerInspect : String → Except Error ContainerJSON
  /-- Reply of the package helper `getContainerPort(ports, port)`. -/
  getContainerPort : PortMap → Port → Except Error String
  /-- Reply of the package helper `waitForCluster(url, attempts, interval)`. -/
  waitForCluster : String → Nat → Nat → Bool
  /-- Reply of `crenvtest.InstallCRDs(config, options)`: the installed
  definitions and an error. -/
  installCRDs : RestConfig → CRDInstallOptions → List String × Option Error
  /-- Reply of `cli.ContainerStop(ctx, id, timeout)`. -/
  containerStop : String → Option Nat → Option Error
  /-- Reply of `cli.ContainerRemove(ctx, id, options)`. -/
  containerRemove : String → ContainerRemoveOptions → Option Error

/-- The state outside the `Environment` value: the calls issued so far, the
containers that exist in the engine, and every identifier the engine has ever
handed out on a successful create. -/
structure Engine where
  calls : List Call := []
  containers : List String := []
  created : List String := []
  deriving DecidableEq, Repr

/-- Append a call to the log. -/
def Engine.log (s : Engine) (c : Call) : Engine :=
  { s with calls := s.calls ++ [c] }

/-- A successful create adds the container to the engine. -/
def Engine.add (s : Engine) (id : String) : Engine :=
  { s with containers := id :: s.containers, created := id :: s.created }

/-- A successful remove deletes the container from the engine. -/
def Engine.delete (s : Engine) (id : String) : Engine :=
  { s with containers := s.containers.filter (fun c => c != id) }

/-- The calls issued between state `s` and the later state `t`. -/
def issued (s t : Engine) : List Call :=
  t.calls.drop s.calls.length

/-! ## String formatting -/

/-- Go `fmt.Sprintf("insecure-port=%s", a)`. -/
def sprintfInsecurePort (a : String) : String := "insecure-port=" ++ a

/-- Go `fmt.Sprintf("insecure-bind-address=%s", a)`. -/
def sprintfInsecureBindAddress (a : String) : String := "insecure-bind-address=" ++ a

/-- Go `fmt.Sprintf("http://localhost:%s", a)`. -/
def sprintfHost (a : String) : String := "http://localhost:" ++ a

/-- Go `fmt.Sprintf("%s/healthz", a)`. -/
def sprintfHealthz (a : String) : String := a ++ "/healthz"

/-! ## Start (envtest.go, lines 39-123) -/

/-- The pair `(*rest.Config, error)` returned by `Start`; `none` is nil. -/
abbrev StartResult := Option RestConfig × Option Error

/-- The `container.Config` literal of lines 62-72. -/
def containerConfig (e : Environment) (natPort : Port) : Config :=
  { Image := e.Image
    Cmd := ["server",
            "--kube-apiserver-arg", sprintfInsecurePort InsecurePort,
            "--kube-apiserver-arg", sprintfInsecureBindAddress BindAddress]
    ExposedPorts := [natPort] }

/-- The `container.HostConfig` literal of lines 74-83. -/
def containerHostConfig (natPort : Port) : HostConfig :=
  { Privileged := true
    PortBindings := [(natPort, [{ HostIP := BindAddress }])] }

/-- Lines 43-45: the image defaults when it is empty. -/
def Environment.defaulted (e : Environment) : Environment :=
  if e.Image = "" then { e with Image := DefaultImage } else e

/-- Start the test environment.  Returns the Go result pair, the receiver after
the call and the engine state after the call. -/
def Environment.Start (o : Outside) (e : Environment) (s : Engine) :
    StartResult × Environment × Engine :=
  let e := e.defaulted
  let s := s.log Call.newEnvClient
  match o.newEnvClient with
  | some err => ((none, some err), e, s)
  | none =>
  let s := s.log (Call.imagePull e.Image)
  match o.imagePull e.Image with
  | some err => ((none, some err), e, s)
  | none =>
  let s := s.log (Call.newPort "tcp" InsecurePort)
  match o.newPort "tcp" InsecurePort with
  | .error err => ((none, some err), e, s)
  | .ok natPort =>
  let s := s.log (Call.containerCreate (containerConfig e natPort) (containerHostConfig natPort) none "")
  match o.containerCreate (containerConfig e natPort) (containerHostConfig natPort) none "" with
  | .error err => ((none, some err), e, s)
  | .ok respID =>
  let s := s.add respID
  let e := { e with id := respID }
  let s := s.log (Call.containerStart respID)
  match o.containerStart respID with
  | some err => ((none, some err), e, s)
  | none =>
  let s := s.log (Call.containerInspect respID)
  match o.containerInspect respID with
  | .error err => ((none, some err), e, s)
  | .ok inspect =>
  let s := s.log (Call.getContainerPort inspect.NetworkSettings.Ports natPort)
  match o.getContainerPort inspect.NetworkSettings.Ports natPort with
  | .error err => ((none, some err), e, s)
  | .ok port =>
  let host := sprintfHost port
  let s := s.log (Call.waitForCluster (sprintfHealthz host) 20 (Second * 5))
  let ready := o.waitForCluster (sprintfHealthz host) 20 (Second * 5)
  if !ready then
    ((none, some ⟨"cluster did not become available"⟩), e, s)
  else
  let config : RestConfig := { Host := host }
  let s := s.log (Call.installCRDs config { Paths := e.CRDDirectoryPaths })
  let _ := o.installCRDs config { Paths := e.CRDDirectoryPaths }
  ((some config, none), e, s)

/-! ## Stop (envtest.go, lines 125-147) -/

/-- Stop the test environment.  Returns the Go error (`none` is nil), the
receiver after the call and the engine state after the call. -/
def Environment.Stop (o : Outside) (e : Environment) (s : Engine) :
    Option Error × Environment × Engine :=
  let s := s.log Call.newEnvClient
  match o.newEnvClient with
  | some err => (some err, e, s)
  | none =>
  let s := s.log (Call.println ["removing container:", e.id])
  let s := s.log (Call.containerStop e.id none)
  match o.containerStop e.id none with
  | some err => (some err, e, s)
  | none =>
  let opts : ContainerRemoveOptions := { RemoveVolumes := true, RemoveLinks := true, Force := true }
  let s := s.log (Call.containerRemove e.id opts)
  match o.containerRemove e.id opts with
  | some err => (some err, e, s)
  | none => (none, e, s.delete e.id)

/-! ## How far a run of Start gets

Each predicate says that every step up to the named one succeeds, and names the
values the successful steps reply with: the port `p` built by the port library,
the container identifier `c`, the inspect reply `j` and the host port `P`. -/

/-- The engine connection succeeds. -/
def okConnect (o : Outside) : Prop :=
  o.newEnvClient = none

/-- Connection and image pull succeed. -/
def okPull (o : Outside) (e : Environment) : Prop :=
  okConnect o ∧ o.imagePull e.defaulted.Image = none

/-- Everything up to the construction of the port specification succeeds. -/
def okPortSpec (o : Outside) (e : Environment) (p : Port) : Prop :=
  okPull o e ∧ o.newPort "tcp" InsecurePort = .ok p

/-- Everything up to the container create succeeds. -/
def okCreate (o : Outside) (e : Environment) (p : Port) (c : String) : Prop :=
  okPortSpec o e p ∧
    o.containerCreate (containerConfig e.defaulted p) (containerHostConfig p) none "" = .ok c

/-- Everything up to the container start succeeds. -/
def okStart (o : Outside) (e : Environment) (p : Port) (c : String) : Prop :=
  okCreate o e p c ∧ o.containerStart c = none

/-- Everything up to the container inspect succeeds. -/
def okInspect (o : Outside) (e : Environment) (p : Port) (c : String) (j : ContainerJSON) : Prop :=
  okStart o e p c ∧ o.containerInspect c = .ok j

/-- Everything up to the port resolution succeeds. -/
def okResolve (o : Outside) (e : Environment) (p : Port) (c : String) (j : ContainerJSON)
    (P : String) : Prop :=
  okInspect o e p c j ∧ o.getContainerPort j.NetworkSettings.Ports p = .ok P

/-- Everything up to the readiness check succeeds: the cluster is ready. -/
def okReady (o : Outside) (e : Environment) (p : Port) (c : String) (j : ContainerJSON)
    (P : String) : Prop :=
  okResolve o e p c j P ∧
    o.waitForCluster (sprintfHealthz (sprintfHost P)) 20 (Second * 5) = true

/-- The calls of kind `k` in a log, in order. -/
def callsOf (k : Kind) (cs : List Call) : List Call :=
  cs.filter (fun c => c.kind == k)

/-- The fixed order of the steps of `Start` that can fail. -/
def stepOrder : List Kind :=
  [.connect, .pull, .portSpec, .create, .start, .inspect, .resolve, .ready]

/-- The calls of a run that gets as far as the image pull. -/
def callsToPull (e : Environment) : List Call :=
  [Call.newEnvClient, Call.imagePull e.defaulted.Image]

/-- The calls of a run that gets as far as the port specification. -/
def callsToPortSpec (e : Environment) : List Call :=
  callsToPull e ++ [Call.newPort "tcp" InsecurePort]

/-- The calls of a run that gets as far as the container create. -/
def callsToCreate (e : Environment) (p : Port) : List Call :=
  callsToPortSpec e ++
    [Call.containerCreate (containerConfig e.defaulted p) (containerHostConfig p) none ""]

/-- The calls of a run that gets as far as the container start. -/
def callsToStart (e : Environment) (p : Port) (c : String) : List Call :=
  callsToCreate e p ++ [Call.containerStart c]

/-- The calls of a run that gets as far as the container inspect. -/
def callsToInspect (e : Environment) (p : Port) (c : String) : List Call :=
  callsToStart e p c ++ [Call.containerInspect c]

/-- The calls of a run that gets as far as the port resolution. -/
def callsToResolve (e : Environment) (p : Port) (c : String) (j : ContainerJSON) : List Call :=
  callsToInspect e p c ++ [Call.getContainerPort j.NetworkSettings.Ports p]

/-- The calls of a run that gets as far as the readiness check. -/
def callsToReady (e : Environment) (p : Port) (c : String) (j : ContainerJSON) (P : String) :
    List Call :=
  callsToResolve e p c j ++
    [Call.waitForCluster (sprintfHealthz (sprintfHost P)) 20 (Second * 5)]

/-- The calls of a complete run of `Start`, in order. -/
def startCalls (e : Environment) (p : Port) (c : String) (j : ContainerJSON) (P : String) :
    List Call :=
  callsToReady e p c j P ++
    [Call.installCRDs { Host := sprintfHost P } { Paths := e.CRDDirectoryPaths }]

/-- The error `Start` builds when the readiness check reports not ready. -/
def errNotAvailable : Error := ⟨"cluster did not become available"⟩

/-- Step `k` of `Start` is the first to fail, with error `err`: every earlier
step succeeds and step `k` replies with `err` (for the readiness check: it
reports not ready, and `err` is the error `Start` builds for that). -/
def FirstFails (o : Outside) (e : Environment) : Kind → Error → Prop
  | .connect, err => o.newEnvClient = some err
  | .pull, err => okConnect o ∧ o.imagePull e.defaulted.Image = some err
  | .portSpec, err => okPull o e ∧ o.newPort "tcp" InsecurePort = .error err
  | .create, err => ∃ p, okPortSpec o e p ∧
      o.containerCreate (containerConfig e.defaulted p) (containerHostConfig p) none ""
        = .error err
  | .start, err => ∃ p c, okCreate o e p c ∧ o.containerStart c = some err
  | .inspect, err => ∃ p c, okStart o e p c ∧ o.containerInspect c = .error err
  | .resolve, err => ∃ p c j, okInspect o e p c j ∧
      o.getContainerPort j.NetworkSettings.Ports p = .error err
  | .ready, err => ∃ p c j P, okResolve o e p c j P ∧
      o.waitForCluster (sprintfHealthz (sprintfHost P)) 20 (Second * 5) = false ∧
      err = errNotAvailable
  | .install, _ => False
  | .print, _ => False
  | .stop, _ => False
  | .remove, _ => False

/-! ## Sequences of Start and Stop calls -/

/-- One call on the `Environment`, with the outside world it meets. -/
inductive Op where
  | start (o : Outside)
  | stop (o : Outside)

/-- The outside world an operation meets. -/
def Op.outside : Op → Outside
  | .start o => o
  | .stop o => o

/-- One operation on the pair of the `Environment` and the engine. -/
def step (st : Environment × Engine) : Op → Environment × Engine
  | .start o => (st.1.Start o st.2).2
  | .stop o => (st.1.Stop o st.2).2

/-- A sequence of operations, from left to right. -/
def run (ops : List Op) (st : Environment × Engine) : Environment × Engine :=
  ops.foldl step st

/-- The engine never hands out the empty string as a container identifier. -/
def NonEmptyIds (o : Outside) : Prop :=
  ∀ cfg host net name id, o.containerCreate cfg host net name = .ok id → id ≠ ""

/-- The invariant in the words of the data model: the identifier is set if and
only if a container created by the environment exists (created and not yet
successfully removed). -/
def IdIffExists (st : Environment × Engine) : Prop :=
  st.1.id ≠ "" ↔ st.2.containers ≠ []

/-! ## Sample outside worlds -/

/-- A sample helper for port resolution: the host port of the first binding of
the port in the map. -/
def firstHostPort (ports : PortMap) (port : Port) : Except Error String :=
  match ports.lookup port with
  | some (b :: _) => .ok b.HostPort
  | _ => .error ⟨"port not found"⟩

/-- A sample inspect reply: 8080/tcp is published on host port 32768. -/
def sampleInspect : ContainerJSON :=
  { NetworkSettings := { Ports := [("8080/tcp", [{ HostIP := "0.0.0.0", HostPort := "32768" }])] } }

/-- A sample world in which every call succeeds: the engine creates container
"k3s-1", publishes 8080/tcp on host port 32768, and the health endpoint is
ready. -/
def happy : Outside where
  newEnvClient := none
  imagePull := fun _ => none
  newPort := fun proto port => .ok (port ++ "/" ++ proto)
  containerCreate := fun _ _ _ _ => .ok "k3s-1"
  containerStart := fun _ => none
  containerInspect := fun _ => .ok sampleInspect
  getContainerPort := firstHostPort
  waitForCluster := fun _ _ _ => true
  installCRDs := fun _ _ => ([], none)
  containerStop := fun _ _ => none
  containerRemove := fun _ _ => none

/-- The sample world, but the health endpoint never becomes ready. -/
def neverReady : Outside :=
  { happy with waitForCluster := fun _ _ _ => false }

/-- The sample world, but the inspect reply publishes no port. -/
def unpublished : Outside :=
  { happy with containerInspect := fun _ => .ok {} }

/-- The sample world, but the container fails to start. -/
def startFails : Outside :=
  { happy with containerStart := fun _ => some ⟨"cannot start container"⟩ }

/-- The sample world, but the image cannot be pulled. -/
def pullFails : Outside :=
  { happy with imagePull := fun _ => some ⟨"pull access denied"⟩ }

/-- The sample world, but the CRD installer fails. -/
def installFails : Outside :=
  { happy with installCRDs := fun _ _ => ([], some ⟨"unable to read CRD files"⟩) }

/-- The sample world, but the engine refuses to stop the container. -/
def stopFails : Outside :=
  { happy with containerStop := fun _ _ => some ⟨"cannot stop container"⟩ }

/-! ## Path lemmas: the value of Start on each path through its body -/

@[simp] theorem defaulted_CRDDirectoryPaths (e : Environment) :
    e.defaulted.CRDDirectoryPaths = e.CRDDirectoryPaths := by
  unfold Environment.defaulted; split <;> rfl

@[simp] theorem defaulted_id (e : Environment) : e.defaulted.id = e.id := by
  unfold Environment.defaulted; split <;> rfl

theorem defaulted_Image (e : Environment) :
    e.defaulted.Image = if e.Image = "" then DefaultImage else e.Image := by
  unfold Environment.defaulted; split <;> rfl

theorem issued_append (s : Engine) (cs : List Call) (a b : List String) :
    issued s { calls := s.calls ++ cs, containers := a, created := b } = cs := by
  simp [issued]

theorem Start_connect_fails (o : Outside) (e : Environment) (s : Engine) (err : Error)
    (h : o.newEnvClient = some err) :
    e.Start o s = ((none, some err), e.defaulted,
      { s with calls := s.calls ++ [Call.newEnvClient] }) := by
  simp [Environment.Start, Engine.log, h]

theorem Start_pull_fails (o : Outside) (e : Environment) (s : Engine) (err : Error)
    (h : okConnect o) (hf : o.imagePull e.defaulted.Image = some err) :
    e.Start o s = ((none, some err), e.defaulted,
      { s with calls := s.calls ++ callsToPull e }) := by
  simp only [okConnect] at h
  simp [Environment.Start, Engine.log, callsToPull, h, hf]

theorem Start_portSpec_fails (o : Outside) (e : Environment) (s : Engine) (err : Error)
    (h : okPull o e) (hf : o.newPort "tcp" InsecurePort = .error err) :
    e.Start o s = ((none, some err), e.defaulted,
      { s with calls := s.calls ++ callsToPortSpec e }) := by
  simp only [okPull, okConnect] at h
  simp [Environment.Start, Engine.log, callsToPortSpec, callsToPull, h, hf]

theorem Start_create_fails (o : Outside) (e : Environment) (s : Engine) (err : Error) (p : Port)
    (h : okPortSpec o e p)
    (hf : o.containerCreate (containerConfig e.defaulted p) (containerHostConfig p) none ""
      = .error err) :
    e.Start o s = ((none, some err), e.defaulted,
      { s with calls := s.calls ++ callsToCreate e p }) := by
  simp only [okPortSpec, okPull, okConnect] at h
  simp [Environment.Start, Engine.log, callsToCreate, callsToPortSpec, callsToPull, h, hf]

theorem Start_start_fails (o : Outside) (e : Environment) (s : Engine) (err : Error) (p : Port)
    (c : String) (h : okCreate o e p c) (hf : o.containerStart c = some err) :
    e.Start o s = ((none, some err), { e.defaulted with id := c },
      { calls := s.calls ++ callsToStart e p c, containers := c :: s.containers,
        created := c :: s.created }) := by
  simp only [okCreate, okPortSpec, okPull, okConnect] at h
  simp [Environment.Start, Engine.log, Engine.add, callsToStart, callsToCreate, callsToPortSpec,
    callsToPull, h, hf]

theorem Start_inspect_fails (o : Outside) (e : Environment) (s : Engine) (err : Error) (p : Port)
    (c : String) (h : okStart o e p c) (hf : o.containerInspect c = .error err) :
    e.Start o s = ((none, some err), { e.defaulted with id := c },
      { calls := s.calls ++ callsToInspect e p c, containers := c :: s.containers,
        created := c :: s.created }) := by
  simp only [okStart, okCreate, okPortSpec, okPull, okConnect] at h
  simp [Environment.Start, Engine.log, Engine.add, callsToInspect, callsToStart, callsToCreate,
    callsToPortSpec, callsToPull, h, hf]

theorem Start_resolve_fails (o : Outside) (e : Environment) (s : Engine) (err : Error) (p : Port)
    (c : String) (j : ContainerJSON) (h : okInspect o e p c j)
    (hf : o.getContainerPort j.NetworkSettings.Ports p = .error err) :
    e.Start o s = ((none, some err), { e.defaulted with id := c },
      { calls := s.calls ++ callsToResolve e p c j, containers := c :: s.containers,
        created := c :: s.created }) := by
  simp only [okInspect, okStart, okCreate, okPortSpec, okPull, okConnect] at h
  simp [Environment.Start, Engine.log, Engine.add, callsToResolve, callsToInspect, callsToStart,
    callsToCreate, callsToPortSpec, callsToPull, h, hf]

theorem Start_not_ready (o : Outside) (e : Environment) (s : Engine) (p : Port)
    (c : String) (j : ContainerJSON) (P : String) (h : okResolve o e p c j P)
    (hf : o.waitForCluster (sprintfHealthz (sprintfHost P)) 20 (Second * 5) = false) :
    e.Start o s = ((none, some errNotAvailable), { e.defaulted with id := c },
      { calls := s.calls ++ callsToReady e p c j P, containers := c :: s.containers,
        created := c :: s.created }) := by
  simp only [okResolve, okInspect, okStart, okCreate, okPortSpec, okPull, okConnect] at h
  simp [Environment.Start, Engine.log, Engine.add, callsToReady, callsToResolve, callsToInspect,
    callsToStart, callsToCreate, callsToPortSpec, callsToPull, errNotAvailable, h, hf]

theorem Start_ready (o : Outside) (e : Environment) (s : Engine) (p : Port)
    (c : String) (j : ContainerJSON) (P : String) (h : okReady o e p c j P) :
    e.Start o s = ((some { Host := sprintfHost P }, none), { e.defaulted with id := c },
      { calls := s.calls ++ startCalls e p c j P, containers := c :: s.containers,
        created := c :: s.created }) := by
  simp only [okReady, okResolve, okInspect, okStart, okCreate, okPortSpec, okPull, okConnect] at h
  simp [Environment.Start, Engine.log, Engine.add, startCalls, callsToReady, callsToResolve,
    callsToInspect, callsToStart, callsToCreate, callsToPortSpec, callsToPull, h]

/-- Every run of `Start` takes one of the nine paths: some step is the first to
fail, or the cluster becomes ready. -/
theorem Start_paths (o : Outside) (e : Environment) :
    (∃ k err, FirstFails o e k err) ∨ (∃ p c j P, okReady o e p c j P) := by
  cases h1 : o.newEnvClient with
  | some err => exact Or.inl ⟨.connect, err, h1⟩
  | none =>
  cases h2 : o.imagePull e.defaulted.Image with
  | some err => exact Or.inl ⟨.pull, err, h1, h2⟩
  | none =>
  cases h3 : o.newPort "tcp" InsecurePort with
  | error err => exact Or.inl ⟨.portSpec, err, ⟨h1, h2⟩, h3⟩
  | ok p =>
  cases h4 : o.containerCreate (containerConfig e.defaulted p) (containerHostConfig p) none "" with
  | error err => exact Or.inl ⟨.create, err, p, ⟨⟨h1, h2⟩, h3⟩, h4⟩
  | ok c =>
  cases h5 : o.containerStart c with
  | some err => exact Or.inl ⟨.start, err, p, c, ⟨⟨⟨h1, h2⟩, h3⟩, h4⟩, h5⟩
  | none =>
  cases h6 : o.containerInspect c with
  | error err => exact Or.inl ⟨.inspect, err, p, c, ⟨⟨⟨⟨h1, h2⟩, h3⟩, h4⟩, h5⟩, h6⟩
  | ok j =>
  cases h7 : o.getContainerPort j.NetworkSettings.Ports p with
  | error err => exact Or.inl ⟨.resolve, err, p, c, j, ⟨⟨⟨⟨⟨h1, h2⟩, h3⟩, h4⟩, h5⟩, h6⟩, h7⟩
  | ok P =>
  cases h8 : o.waitForCluster (sprintfHealthz (sprintfHost P)) 20 (Second * 5) with
  | false =>
    exact Or.inl ⟨.ready, errNotAvailable, p, c, j, P, ⟨⟨⟨⟨⟨⟨h1, h2⟩, h3⟩, h4⟩, h5⟩, h6⟩, h7⟩,
      h8, rfl⟩
  | true => exact Or.inr ⟨p, c, j, P, ⟨⟨⟨⟨⟨⟨h1, h2⟩, h3⟩, h4⟩, h5⟩, h6⟩, h7⟩, h8⟩

theorem startCalls_eq (e : Environment) (p : Port) (c : String) (j : ContainerJSON) (P : String) :
    startCalls e p c j P =
      [Call.newEnvClient,
       Call.imagePull e.defaulted.Image,
       Call.newPort "tcp" InsecurePort,
       Call.containerCreate (containerConfig e.defaulted p) (containerHostConfig p) none "",
       Call.containerStart c,
       Call.containerInspect c,
       Call.getContainerPort j.NetworkSettings.Ports p,
       Call.waitForCluster (sprintfHealthz (sprintfHost P)) 20 (Second * 5),
       Call.installCRDs { Host := sprintfHost P } { Paths := e.CRDDirectoryPaths }] := rfl

theorem okCreate_unique (o : Outside) (e : Environment) (p q : Port) (c d : String)
    (h : okCreate o e p c) (hq : okCreate o e q d) : d = c := by
  have h1 := hq.1.2
  rw [h.1.2] at h1
  cases h1
  have h2 := hq.2
  rw [h.2] at h2
  cases h2
  rfl

/-- The shape of every run of `Start`: the calls issued are the first `n` calls
of a complete run; up to four calls leave the identifier and the engine's
containers alone, five or more mean the create call succeeded with `c`. -/
theorem Start_shape (o : Outside) (e : Environment) (s : Engine) :
    ∃ p c j P n,
      issued s (e.Start o s).2.2 = (startCalls e p c j P).take n ∧
      1 ≤ n ∧ n ≤ 9 ∧
      (4 ≤ n → o.newPort "tcp" InsecurePort = .ok p) ∧
      (n ≤ 4 → (e.Start o s).2.1 = e.defaulted ∧
        (e.Start o s).2.2.containers = s.containers ∧
        (e.Start o s).2.2.created = s.created) ∧
      (5 ≤ n → okCreate o e p c ∧ (e.Start o s).2.1 = { e.defaulted with id := c } ∧
        (e.Start o s).2.2.containers = c :: s.containers ∧
        (e.Start o s).2.2.created = c :: s.created) ∧
      (okConnect o → 2 ≤ n) ∧
      (∀ q, okPortSpec o e q → 4 ≤ n) ∧
      (∀ q d, okCreate o e q d → 5 ≤ n ∧ d = c) := by
  rcases Start_paths o e with ⟨k, err, hk⟩ | ⟨p, c, j, P, h⟩
  · cases k <;> simp only [FirstFails] at hk
    · refine ⟨"", "", {}, "", 1, ?_⟩
      rw [Start_connect_fails o e s err hk]
      simp [issued_append, startCalls_eq, okCreate, okPortSpec, okPull, okConnect, hk]
    · refine ⟨"", "", {}, "", 2, ?_⟩
      rw [Start_pull_fails o e s err hk.1 hk.2]
      simp [issued_append, startCalls_eq, callsToPull, okCreate, okPortSpec, okPull, hk.1, hk.2]
    · refine ⟨"", "", {}, "", 3, ?_⟩
      rw [Start_portSpec_fails o e s err hk.1 hk.2]
      simp [issued_append, startCalls_eq, callsToPortSpec, callsToPull, okCreate, okPortSpec,
        hk.1, hk.2, hk.1.1]
    · obtain ⟨p, h, hf⟩ := hk
      refine ⟨p, "", {}, "", 4, ?_⟩
      rw [Start_create_fails o e s err p h hf]
      have hc : ∀ q d, ¬ okCreate o e q d := by
        intro q d hq
        have h1 := hq.1.2
        rw [h.2] at h1
        cases h1
        have h2 := hq.2
        rw [hf] at h2
        cases h2
      simp [issued_append, startCalls_eq, callsToCreate, callsToPortSpec, callsToPull, h.2,
        h.1.1, hc]
    · obtain ⟨p, c, h, hf⟩ := hk
      refine ⟨p, c, {}, "", 5, ?_⟩
      rw [Start_start_fails o e s err p c h hf]
      simp [issued_append, startCalls_eq, callsToStart, callsToCreate, callsToPortSpec,
        callsToPull, h, h.1.2, h.1.1.1]
      exact fun q d hq => okCreate_unique o e p q c d h hq
    · obtain ⟨p, c, h, hf⟩ := hk
      refine ⟨p, c, {}, "", 6, ?_⟩
      rw [Start_inspect_fails o e s err p c h hf]
      simp [issued_append, startCalls_eq, callsToInspect, callsToStart, callsToCreate,
        callsToPortSpec, callsToPull, h.1, h.1.1.2, h.1.1.1.1]
      exact fun q d hq => okCreate_unique o e p q c d h.1 hq
    · obtain ⟨p, c, j, h, hf⟩ := hk
      refine ⟨p, c, j, "", 7, ?_⟩
      rw [Start_resolve_fails o e s err p c j h hf]
      simp [issued_append, startCalls_eq, callsToResolve, callsToInspect, callsToStart,
        callsToCreate, callsToPortSpec, callsToPull, h.1.1, h.1.1.1.2, h.1.1.1.1.1]
      exact fun q d hq => okCreate_unique o e p q c d h.1.1 hq
    · obtain ⟨p, c, j, P, h, hf, rfl⟩ := hk
      refine ⟨p, c, j, P, 8, ?_⟩
      rw [Start_not_ready o e s p c j P h hf]
      simp [issued_append, startCalls_eq, callsToReady, callsToResolve, callsToInspect,
        callsToStart, callsToCreate, callsToPortSpec, callsToPull, h.1.1.1, h.1.1.1.1.2,
        h.1.1.1.1.1.1]
      exact fun q d hq => okCreate_unique o e p q c d h.1.1.1 hq
  · refine ⟨p, c, j, P, 9, ?_⟩
    rw [Start_ready o e s p c j P h]
    simp [issued_append, startCalls_eq, h.1.1.1.1, h.1.1.1.1.1.2, h.1.1.1.1.1.1.1]
    exact fun q d hq => okCreate_unique o e p q c d h.1.1.1.1 hq

/-! ## Path lemmas for Stop -/

theorem Stop_connect_fails (o : Outside) (e : Environment) (s : Engine) (err : Error)
    (h : o.newEnvClient = some err) :
    e.Stop o s = (some err, e, { s with calls := s.calls ++ [Call.newEnvClient] }) := by
  simp [Environment.Stop, Engine.log, h]

theorem Stop_stop_fails (o : Outside) (e : Environment) (s : Engine) (err : Error)
    (h : o.newEnvClient = none) (hf : o.containerStop e.id none = some err) :
    e.Stop o s = (some err, e,
      { s with calls := s.calls ++ [Call.newEnvClient, Call.println ["removing container:", e.id],
          Call.containerStop e.id none] }) := by
  simp [Environment.Stop, Engine.log, h, hf]

theorem Stop_remove_fails (o : Outside) (e : Environment) (s : Engine) (err : Error)
    (h : o.newEnvClient = none) (h1 : o.containerStop e.id none = none)
    (hf : o.containerRemove e.id { RemoveVolumes := true, RemoveLinks := true, Force := true }
      = some err) :
    e.Stop o s = (some err, e,
      { s with calls := s.calls ++ [Call.newEnvClient, Call.println ["removing container:", e.id],
          Call.containerStop e.id none,
          Call.containerRemove e.id { RemoveVolumes := true, RemoveLinks := true, Force := true }] }) := by
  simp [Environment.Stop, Engine.log, h, h1, hf]

theorem Stop_removed (o : Outside) (e : Environment) (s : Engine)
    (h : o.newEnvClient = none) (h1 : o.containerStop e.id none = none)
    (hf : o.containerRemove e.id { RemoveVolumes := true, RemoveLinks := true, Force := true }
      = none) :
    e.Stop o s = (none, e,
      { calls := s.calls ++ [Call.newEnvClient, Call.println ["removing container:", e.id],
          Call.containerStop e.id none,
          Call.containerRemove e.id { RemoveVolumes := true, RemoveLinks := true, Force := true }],
        containers := s.containers.filter (fun c => c != e.id),
        created := s.created }) := by
  simp [Environment.Stop, Engine.log, Engine.delete, h, h1, hf]

/-! ## The claims -/

/-- C1: for every host port string `P`, if every engine call of `Start`
succeeds, port resolution for the exposed port (the port `p` the port library
builds from "tcp" and "8080", i.e. 8080/tcp) yields `P` and the readiness check
reports ready, then `Start` returns a nil error and a configuration whose Host
is exactly "http://localhost:" followed by `P`; and if port resolution fails,
`Start` returns that error with no configuration and the readiness check is
never invoked. -/
theorem Start_host_of_resolved_port (o : Outside) (e : Environment) (s : Engine) (p : Port)
    (c : String) (j : ContainerJSON) (P : String) :
    (okReady o e p c j P →
      (e.Start o s).1 = (some { Host := "http://localhost:" ++ P }, none)) ∧
    (∀ err, okInspect o e p c j →
      o.getContainerPort j.NetworkSettings.Ports p = .error err →
      (e.Start o s).1 = (none, some err) ∧
      callsOf .ready (issued s (e.Start o s).2.2) = []) := by
  refine ⟨fun h => ?_, fun err h hf => ?_⟩
  · rw [Start_ready o e s p c j P h]; rfl
  · rw [Start_resolve_fails o e s err p c j h hf]
    simp [issued_append, callsOf, callsToResolve, callsToInspect, callsToStart, callsToCreate,
      callsToPortSpec, callsToPull, Call.kind]

theorem okReady_happy :
    okReady happy {} "8080/tcp" "k3s-1" sampleInspect "32768" := by
  simp [okReady, okResolve, okInspect, okStart, okCreate, okPortSpec, okPull, okConnect, happy,
    InsecurePort, sampleInspect, firstHostPort, List.lookup]

/-- Witness of C1: host port "32768" gives Host "http://localhost:32768"; an
inspect reply without the binding gives the resolution error and no poll. -/
theorem Start_host_of_resolved_port_witness :
    (({} : Environment).Start happy {}).1 = (some { Host := "http://localhost:32768" }, none) ∧
    ((({} : Environment).Start unpublished {}).1 = (none, some ⟨"port not found"⟩) ∧
      callsOf .ready (issued {} (({} : Environment).Start unpublished {}).2.2) = []) :=
  ⟨(Start_host_of_resolved_port happy {} {} "8080/tcp" "k3s-1" sampleInspect "32768").1
      okReady_happy,
   (Start_host_of_resolved_port unpublished {} {} "8080/tcp" "k3s-1" {} "").2 ⟨"port not found"⟩
      (by simp [okInspect, okStart, okCreate, okPortSpec, okPull, okConnect, unpublished, happy,
            InsecurePort])
      (by simp [unpublished, happy, firstHostPort, List.lookup])⟩

/-- C2: if all engine calls and the port resolution of `Start` succeed but the
readiness check reports not ready, `Start` returns a nil configuration with an
error whose message is exactly "cluster did not become available", attempts no
CRD installation, and issues no container stop or remove call, so the created
container still exists in the engine. -/
theorem Start_not_ready_error (o : Outside) (e : Environment) (s : Engine) (p : Port)
    (c : String) (j : ContainerJSON) (P : String)
    (h : okResolve o e p c j P)
    (hw : o.waitForCluster (sprintfHealthz (sprintfHost P)) 20 (Second * 5) = false) :
    (e.Start o s).1 = (none, some ⟨"cluster did not become available"⟩) ∧
    callsOf .install (issued s (e.Start o s).2.2) = [] ∧
    callsOf .stop (issued s (e.Start o s).2.2) = [] ∧
    callsOf .remove (issued s (e.Start o s).2.2) = [] ∧
    c ∈ (e.Start o s).2.2.containers := by
  rw [Start_not_ready o e s p c j P h hw]
  simp [issued_append, callsOf, callsToReady, callsToResolve, callsToInspect, callsToStart,
    callsToCreate, callsToPortSpec, callsToPull, Call.kind, errNotAvailable]

theorem okResolve_neverReady :
    okResolve neverReady {} "8080/tcp" "k3s-1" sampleInspect "32768" := by
  simp [okResolve, okInspect, okStart, okCreate, okPortSpec, okPull, okConnect, neverReady,
    happy, InsecurePort, sampleInspect, firstHostPort, List.lookup]

/-- Witness of C2: the sample world whose health endpoint never answers. -/
theorem Start_not_ready_error_witness :
    (({} : Environment).Start neverReady {}).1
      = (none, some ⟨"cluster did not become available"⟩) ∧
    callsOf .install (issued {} (({} : Environment).Start neverReady {}).2.2) = [] ∧
    callsOf .stop (issued {} (({} : Environment).Start neverReady {}).2.2) = [] ∧
    callsOf .remove (issued {} (({} : Environment).Start neverReady {}).2.2) = [] ∧
    "k3s-1" ∈ (({} : Environment).Start neverReady {}).2.2.containers :=
  Start_not_ready_error neverReady {} {} "8080/tcp" "k3s-1" sampleInspect "32768"
    okResolve_neverReady rfl

/-- C3: when the engine connection succeeds, `Stop` issues exactly one stop
call, on the container id of the environment; if that call fails `Stop` returns
its error and issues no remove call; if it succeeds `Stop` issues exactly one
remove call on the same id with RemoveVolumes, RemoveLinks and Force all true,
and the result of `Stop` is exactly the result of that remove call. -/
theorem Stop_stop_then_remove (o : Outside) (e : Environment) (s : Engine)
    (h : o.newEnvClient = none) :
    callsOf .stop (issued s (e.Stop o s).2.2) = [Call.containerStop e.id none] ∧
    (∀ err, o.containerStop e.id none = some err →
      (e.Stop o s).1 = some err ∧ callsOf .remove (issued s (e.Stop o s).2.2) = []) ∧
    (o.containerStop e.id none = none →
      callsOf .remove (issued s (e.Stop o s).2.2)
        = [Call.containerRemove e.id { RemoveVolumes := true, RemoveLinks := true, Force := true }] ∧
      (e.Stop o s).1
        = o.containerRemove e.id { RemoveVolumes := true, RemoveLinks := true, Force := true }) := by
  cases h1 : o.containerStop e.id none with
  | some err1 =>
    rw [Stop_stop_fails o e s err1 h h1]
    simp [issued_append, callsOf, Call.kind]
  | none =>
    cases h2 : o.containerRemove e.id
        { RemoveVolumes := true, RemoveLinks := true, Force := true } with
    | some err2 =>
      rw [Stop_remove_fails o e s err2 h h1 h2]
      simp [issued_append, callsOf, Call.kind]
    | none =>
      rw [Stop_removed o e s h h1 h2]
      simp [issued_append, callsOf, Call.kind]

/-- Witness of C3: stopping container "k3s-1" in the sample world, and in the
world whose engine refuses to stop it. -/
theorem Stop_stop_then_remove_witness :
    (callsOf .stop (issued {} (({ id := "k3s-1" } : Environment).Stop happy {}).2.2)
      = [Call.containerStop "k3s-1" none] ∧
    callsOf .remove (issued {} (({ id := "k3s-1" } : Environment).Stop happy {}).2.2)
      = [Call.containerRemove "k3s-1" { RemoveVolumes := true, RemoveLinks := true, Force := true }] ∧
    (({ id := "k3s-1" } : Environment).Stop happy {}).1 = none) ∧
    ((({ id := "k3s-1" } : Environment).Stop stopFails {}).1 = some ⟨"cannot stop container"⟩ ∧
    callsOf .remove (issued {} (({ id := "k3s-1" } : Environment).Stop stopFails {}).2.2) = []) :=
  have h := Stop_stop_then_remove happy { id := "k3s-1" } {} rfl
  have hf := Stop_stop_then_remove stopFails { id := "k3s-1" } {} rfl
  ⟨⟨h.1, (h.2.2 rfl).1, (h.2.2 rfl).2⟩, hf.2.1 ⟨"cannot stop container"⟩ rfl⟩

/-- C4: if Image is empty when `Start` is called, the image reference of every
pull call and of every create configuration `Start` issues is the default
"docker.io/rancher/k3s:v0.4.0", and the Image field is set to it; if Image is a
non-empty string, exactly that string is passed to both and the Image field is
unchanged.  The pull call is issued once the connection succeeds, the create
call once the port specification is built. -/
theorem Start_image (o : Outside) (e : Environment) (s : Engine) :
    (e.Image = "" →
      (∀ r, Call.imagePull r ∈ issued s (e.Start o s).2.2 →
        r = "docker.io/rancher/k3s:v0.4.0") ∧
      (∀ cfg hc net name, Call.containerCreate cfg hc net name ∈ issued s (e.Start o s).2.2 →
        cfg.Image = "docker.io/rancher/k3s:v0.4.0") ∧
      (e.Start o s).2.1.Image = "docker.io/rancher/k3s:v0.4.0") ∧
    (e.Image ≠ "" →
      (∀ r, Call.imagePull r ∈ issued s (e.Start o s).2.2 → r = e.Image) ∧
      (∀ cfg hc net name, Call.containerCreate cfg hc net name ∈ issued s (e.Start o s).2.2 →
        cfg.Image = e.Image) ∧
      (e.Start o s).2.1.Image = e.Image) ∧
    (okConnect o → ∃ r, callsOf .pull (issued s (e.Start o s).2.2) = [Call.imagePull r]) ∧
    (∀ p, okPortSpec o e p →
      ∃ cfg hc, callsOf .create (issued s (e.Start o s).2.2)
        = [Call.containerCreate cfg hc none ""]) := by
  obtain ⟨p, c, j, P, n, hcalls, h1, h9, -, hlow, hhigh, hconn, hport, -⟩ := Start_shape o e s
  have key : (∀ r, Call.imagePull r ∈ issued s (e.Start o s).2.2 → r = e.defaulted.Image) ∧
      (∀ cfg hc net name, Call.containerCreate cfg hc net name ∈ issued s (e.Start o s).2.2 →
        cfg.Image = e.defaulted.Image) ∧
      (e.Start o s).2.1.Image = e.defaulted.Image := by
    refine ⟨fun r hr => ?_, fun cfg hc net name hm => ?_, ?_⟩
    · rw [hcalls] at hr
      have := List.mem_of_mem_take hr
      simpa [startCalls_eq] using this
    · rw [hcalls] at hm
      have := List.mem_of_mem_take hm
      simp [startCalls_eq] at this
      rw [this.1]; rfl
    · rcases Nat.lt_or_ge n 5 with hn | hn
      · rw [(hlow (by omega)).1]
      · rw [(hhigh hn).2.1]
  refine ⟨fun he => ?_, fun he => ?_, fun hc => ?_, fun q hq => ?_⟩
  · have hd : e.defaulted.Image = "docker.io/rancher/k3s:v0.4.0" := by
      simp [defaulted_Image, he, DefaultImage]
    rw [← hd]; exact key
  · have hd : e.defaulted.Image = e.Image := by simp [defaulted_Image, he]
    rw [← hd]; exact key
  · have h2 := hconn hc
    refine ⟨e.defaulted.Image, ?_⟩
    rw [hcalls]
    interval_cases n <;> simp [startCalls_eq, callsOf, Call.kind]
  · have h4 := hport q hq
    refine ⟨containerConfig e.defaulted p, containerHostConfig p, ?_⟩
    rw [hcalls]
    interval_cases n <;> simp [startCalls_eq, callsOf, Call.kind]

/-- Witness of C4: an unset image is pulled and created as the default image, a
set image verbatim. -/
theorem Start_image_witness :
    (∃ r, callsOf .pull (issued {} (({} : Environment).Start happy {}).2.2) = [Call.imagePull r]) ∧
    (({} : Environment).Start happy {}).2.1.Image = "docker.io/rancher/k3s:v0.4.0" ∧
    (({ Image := "rancher/k3s:v1.0.0" } : Environment).Start happy {}).2.1.Image
      = "rancher/k3s:v1.0.0" :=
  ⟨(Start_image happy {} {}).2.2.1 rfl,
   ((Start_image happy {} {}).1 rfl).2.2,
   ((Start_image happy { Image := "rancher/k3s:v1.0.0" } {}).2.1 (by decide)).2.2⟩

/-- C5: in every run of `Start` in which the create call succeeds with
identifier `c`, the container id of the environment is `c` when `Start`
returns, whatever the later steps reply; and in every run in which the
connection, the pull, the port specification or the create call is the first
step to fail, the container id is left unchanged. -/
theorem Start_records_id (o : Outside) (e : Environment) (s : Engine) :
    (∀ p c, okCreate o e p c → (e.Start o s).2.1.id = c) ∧
    (∀ k err, FirstFails o e k err →
      k ∈ [Kind.connect, Kind.pull, Kind.portSpec, Kind.create] →
      (e.Start o s).2.1.id = e.id) := by
  refine ⟨fun q d hq => ?_, fun k err hk hmem => ?_⟩
  · obtain ⟨p, c, j, P, n, -, -, -, -, -, hhigh, -, -, hcreate⟩ := Start_shape o e s
    obtain ⟨hn, rfl⟩ := hcreate q d hq
    rw [(hhigh hn).2.1]
  · cases k <;> simp only [FirstFails] at hk <;> simp at hmem
    · rw [Start_connect_fails o e s err hk]; simp
    · rw [Start_pull_fails o e s err hk.1 hk.2]; simp
    · rw [Start_portSpec_fails o e s err hk.1 hk.2]; simp
    · obtain ⟨p, h, hf⟩ := hk
      rw [Start_create_fails o e s err p h hf]; simp

theorem okCreate_startFails : okCreate startFails {} "8080/tcp" "k3s-1" := by
  simp [okCreate, okPortSpec, okPull, okConnect, startFails, happy, InsecurePort]

/-- Witness of C5: the container fails to start after it was created as
"k3s-1", and the id is recorded; the pull fails, and the id stays as it was. -/
theorem Start_records_id_witness :
    (({} : Environment).Start startFails {}).2.1.id = "k3s-1" ∧
    (({ id := "old" } : Environment).Start pullFails {}).2.1.id = "old" :=
  ⟨(Start_records_id startFails {} {}).1 "8080/tcp" "k3s-1" okCreate_startFails,
   (Start_records_id pullFails { id := "old" } {}).2 Kind.pull ⟨"pull access denied"⟩
     ⟨rfl, rfl⟩ (by decide)⟩

theorem startCalls_kinds (e : Environment) (p : Port) (c : String) (j : ContainerJSON)
    (P : String) : (startCalls e p c j P).map Call.kind = stepOrder ++ [Kind.install] := rfl

/-- C7: `Start` performs its external steps in the fixed order connect, image
pull, port specification, container create, container start, container inspect,
port resolution, readiness check (the calls of every run are an initial segment
of that order followed by the CRD installation, and no step occurs twice in
it); and whichever step is the first to fail with error `err`, `Start` returns
exactly a nil configuration with `err`, the calls issued are exactly the steps
up to and including the failing one, each once, and no container stop or remove
call is issued. -/
theorem Start_step_order (o : Outside) (e : Environment) (s : Engine) :
    ((issued s (e.Start o s).2.2).map Call.kind <+: stepOrder ++ [Kind.install]) ∧
    stepOrder.Nodup ∧
    (∀ k err, FirstFails o e k err →
      (e.Start o s).1 = (none, some err) ∧
      (issued s (e.Start o s).2.2).map Call.kind = stepOrder.take (stepOrder.indexOf k + 1) ∧
      callsOf .stop (issued s (e.Start o s).2.2) = [] ∧
      callsOf .remove (issued s (e.Start o s).2.2) = []) := by
  refine ⟨?_, by decide, fun k err hk => ?_⟩
  · obtain ⟨p, c, j, P, n, hcalls, -⟩ := Start_shape o e s
    rw [hcalls, List.map_take, startCalls_kinds]
    exact List.take_prefix _ _
  · cases k <;> simp only [FirstFails] at hk
    · rw [Start_connect_fails o e s err hk]
      simp [issued_append, callsOf, Call.kind, stepOrder, List.indexOf_cons]
    · rw [Start_pull_fails o e s err hk.1 hk.2]
      simp [issued_append, callsOf, Call.kind, stepOrder, List.indexOf_cons, callsToPull]
    · rw [Start_portSpec_fails o e s err hk.1 hk.2]
      simp [issued_append, callsOf, Call.kind, stepOrder, List.indexOf_cons, callsToPortSpec,
        callsToPull]
    · obtain ⟨p, h, hf⟩ := hk
      rw [Start_create_fails o e s err p h hf]
      simp [issued_append, callsOf, Call.kind, stepOrder, List.indexOf_cons, callsToCreate,
        callsToPortSpec, callsToPull]
    · obtain ⟨p, c, h, hf⟩ := hk
      rw [Start_start_fails o e s err p c h hf]
      simp [issued_append, callsOf, Call.kind, stepOrder, List.indexOf_cons, callsToStart,
        callsToCreate, callsToPortSpec, callsToPull]
    · obtain ⟨p, c, h, hf⟩ := hk
      rw [Start_inspect_fails o e s err p c h hf]
      simp [issued_append, callsOf, Call.kind, stepOrder, List.indexOf_cons, callsToInspect,
        callsToStart, callsToCreate, callsToPortSpec, callsToPull]
    · obtain ⟨p, c, j, h, hf⟩ := hk
      rw [Start_resolve_fails o e s err p c j h hf]
      simp [issued_append, callsOf, Call.kind, stepOrder, List.indexOf_cons, callsToResolve,
        callsToInspect, callsToStart, callsToCreate, callsToPortSpec, callsToPull]
    · obtain ⟨p, c, j, P, h, hf, rfl⟩ := hk
      rw [Start_not_ready o e s p c j P h hf]
      simp [issued_append, callsOf, Call.kind, stepOrder, List.indexOf_cons, callsToReady,
        callsToResolve, callsToInspect, callsToStart, callsToCreate, callsToPortSpec,
        callsToPull]

/-- Witness of C7: the container start is the first step to fail. -/
theorem Start_step_order_witness :
    (({} : Environment).Start startFails {}).1 = (none, some ⟨"cannot start container"⟩) ∧
    (issued {} (({} : Environment).Start startFails {}).2.2).map Call.kind
      = [Kind.connect, Kind.pull, Kind.portSpec, Kind.create, Kind.start] ∧
    callsOf .stop (issued {} (({} : Environment).Start startFails {}).2.2) = [] ∧
    callsOf .remove (issued {} (({} : Environment).Start startFails {}).2.2) = [] :=
  (Start_step_order startFails {} {}).2.2 Kind.start ⟨"cannot start container"⟩
    ⟨"8080/tcp", "k3s-1", okCreate_startFails, rfl⟩

/-- C8: in every run of `Start` that reaches readiness, the CRD installer is
invoked exactly once, with the connection configuration for the base URL and
with Paths equal to the CRDDirectoryPaths of the environment in their order;
and whatever the installer replies, `Start` returns that same configuration
with a nil error. -/
theorem Start_ignores_install (o : Outside) (e : Environment) (s : Engine) (p : Port)
    (c : String) (j : ContainerJSON) (P : String) (h : okReady o e p c j P) :
    callsOf .install (issued s (e.Start o s).2.2)
      = [Call.installCRDs { Host := "http://localhost:" ++ P }
          { Paths := e.CRDDirectoryPaths }] ∧
    (e.Start o s).1 = (some { Host := "http://localhost:" ++ P }, none) ∧
    (∀ f, (e.Start { o with installCRDs := f } s).1
      = (some { Host := "http://localhost:" ++ P }, none)) := by
  refine ⟨?_, ?_, fun f => ?_⟩
  · rw [Start_ready o e s p c j P h]
    simp [issued_append, startCalls_eq, callsOf, Call.kind, sprintfHost]
  · rw [Start_ready o e s p c j P h]; rfl
  · have h2 : okReady { o with installCRDs := f } e p c j P := h
    rw [Start_ready _ e s p c j P h2]; rfl

/-- Witness of C8: two CRD directories, and an installer that fails. -/
theorem Start_ignores_install_witness :
    callsOf .install
        (issued {} (({ CRDDirectoryPaths := ["config/crds", "extra"] } : Environment).Start
          installFails {}).2.2)
      = [Call.installCRDs { Host := "http://localhost:32768" }
          { Paths := ["config/crds", "extra"] }] ∧
    (({ CRDDirectoryPaths := ["config/crds", "extra"] } : Environment).Start installFails {}).1
      = (some { Host := "http://localhost:32768" }, none) :=
  have h := Start_ignores_install installFails { CRDDirectoryPaths := ["config/crds", "extra"] }
    {} "8080/tcp" "k3s-1" sampleInspect "32768"
    (by simp [okReady, okResolve, okInspect, okStart, okCreate, okPortSpec, okPull, okConnect,
          installFails, happy, InsecurePort, sampleInspect, firstHostPort, List.lookup])
  ⟨h.1, h.2.1⟩

/-- C9: in every run of `Start` that resolves host port `P`, the readiness
check is invoked exactly once, with the URL "http://localhost:" followed by `P`
and "/healthz", a maximum of exactly 20 attempts and an interval of exactly 5
seconds, so that attempts times interval is exactly 100 seconds. -/
theorem Start_poll_budget (o : Outside) (e : Environment) (s : Engine) (p : Port)
    (c : String) (j : ContainerJSON) (P : String) (h : okResolve o e p c j P) :
    callsOf .ready (issued s (e.Start o s).2.2)
      = [Call.waitForCluster ("http://localhost:" ++ P ++ "/healthz") 20 (5 * Second)] ∧
    20 * (5 * Second) = 100 * Second := by
  refine ⟨?_, by decide⟩
  cases hw : o.waitForCluster (sprintfHealthz (sprintfHost P)) 20 (Second * 5) with
  | false =>
    rw [Start_not_ready o e s p c j P h hw]
    simp [issued_append, callsOf, Call.kind, callsToReady, callsToResolve, callsToInspect,
      callsToStart, callsToCreate, callsToPortSpec, callsToPull, sprintfHost, sprintfHealthz,
      Nat.mul_comm]
  | true =>
    rw [Start_ready o e s p c j P ⟨h, hw⟩]
    simp [issued_append, startCalls_eq, callsOf, Call.kind, sprintfHost, sprintfHealthz,
      Nat.mul_comm]

/-- Witness of C9: host port "32768" is polled at
"http://localhost:32768/healthz". -/
theorem Start_poll_budget_witness :
    callsOf .ready (issued {} (({} : Environment).Start neverReady {}).2.2)
      = [Call.waitForCluster "http://localhost:32768/healthz" 20 5000000000] ∧
    20 * (5 * Second) = 100 * Second :=
  Start_poll_budget neverReady {} {} "8080/tcp" "k3s-1" sampleInspect "32768"
    okResolve_neverReady

/-- C10: every container-create call `Start` issues carries the command line
["server", "--kube-apiserver-arg", "insecure-port=8080", "--kube-apiserver-arg",
"insecure-bind-address=0.0.0.0"], an exposed-port set holding exactly the port
the port library built from "tcp" and "8080" (8080/tcp), a host configuration
with Privileged true and port bindings mapping exactly that port to a single
binding with HostIP "0.0.0.0" and an empty host port, no networking
configuration and an empty container name; and the create call is issued,
once, as soon as the port specification is built. -/
theorem Start_create_call (o : Outside) (e : Environment) (s : Engine) :
    (∀ cfg hc net name, Call.containerCreate cfg hc net name ∈ issued s (e.Start o s).2.2 →
      ∃ p, o.newPort "tcp" "8080" = .ok p ∧
        cfg.Cmd = ["server", "--kube-apiserver-arg", "insecure-port=8080",
                   "--kube-apiserver-arg", "insecure-bind-address=0.0.0.0"] ∧
        cfg.ExposedPorts = [p] ∧
        hc.Privileged = true ∧
        hc.PortBindings = [(p, [{ HostIP := "0.0.0.0", HostPort := "" }])] ∧
        net = none ∧
        name = "") ∧
    (∀ p, okPortSpec o e p →
      ∃ cfg hc, callsOf .create (issued s (e.Start o s).2.2)
        = [Call.containerCreate cfg hc none ""]) := by
  obtain ⟨p, c, j, P, n, hcalls, h1, h9, hnew, -, -, -, hport, -⟩ := Start_shape o e s
  refine ⟨fun cfg hc net name hm => ?_, fun q hq => ?_⟩
  · refine ⟨p, ?_⟩
    rw [hcalls] at hm
    have h4 : 4 ≤ n := by
      by_contra hlt
      have hn : n ≤ 3 := by omega
      interval_cases n <;> simp [startCalls_eq] at hm
    have hmem := List.mem_of_mem_take hm
    simp [startCalls_eq] at hmem
    obtain ⟨rfl, rfl, rfl, rfl⟩ := hmem
    refine ⟨hnew h4, ?_⟩
    simp [containerConfig, containerHostConfig, sprintfInsecurePort, sprintfInsecureBindAddress,
      InsecurePort, BindAddress]
  · have h4 := hport q hq
    refine ⟨containerConfig e.defaulted p, containerHostConfig p, ?_⟩
    rw [hcalls]
    interval_cases n <;> simp [startCalls_eq, callsOf, Call.kind]

/-- Witness of C10: in the sample world the port library builds "8080/tcp" and
the create call is issued. -/
theorem Start_create_call_witness :
    (∃ p, happy.newPort "tcp" "8080" = .ok p ∧
      (containerConfig ({} : Environment).defaulted "8080/tcp").Cmd
        = ["server", "--kube-apiserver-arg", "insecure-port=8080",
           "--kube-apiserver-arg", "insecure-bind-address=0.0.0.0"] ∧
      (containerConfig ({} : Environment).defaulted "8080/tcp").ExposedPorts = [p] ∧
      (containerHostConfig "8080/tcp").Privileged = true ∧
      (containerHostConfig "8080/tcp").PortBindings
        = [(p, [{ HostIP := "0.0.0.0", HostPort := "" }])] ∧
      (none : Option NetworkingConfig) = none ∧
      "" = "") ∧
    (∃ cfg hc, callsOf .create (issued {} (({} : Environment).Start happy {}).2.2)
      = [Call.containerCreate cfg hc none ""]) :=
  ⟨(Start_create_call happy {} {}).1 _ _ _ _
      (by rw [Start_ready happy {} {} "8080/tcp" "k3s-1" sampleInspect "32768" okReady_happy]
          simp [issued, startCalls_eq]),
   (Start_create_call happy {} {}).2 "8080/tcp"
      (by simp [okPortSpec, okPull, okConnect, happy, InsecurePort])⟩

/-! ## The identifier across sequences of Start and Stop -/

/-- What `Stop` does to the state: the environment is untouched, no identifier
is handed out, and no container appears. -/
theorem Stop_state (o : Outside) (e : Environment) (s : Engine) :
    (e.Stop o s).2.1 = e ∧ (e.Stop o s).2.2.created = s.created ∧
    (∀ c ∈ (e.Stop o s).2.2.containers, c ∈ s.containers) := by
  cases h : o.newEnvClient with
  | some err => rw [Stop_connect_fails o e s err h]; simp
  | none =>
    cases h1 : o.containerStop e.id none with
    | some err => rw [Stop_stop_fails o e s err h h1]; simp
    | none =>
      cases h2 : o.containerRemove e.id
          { RemoveVolumes := true, RemoveLinks := true, Force := true } with
      | some err => rw [Stop_remove_fails o e s err h h1 h2]; simp
      | none =>
        rw [Stop_removed o e s h h1 h2]
        simp only [true_and]
        intro c hc
        exact (List.mem_filter.mp hc).1

/-- One operation keeps: the identifier is set exactly when an identifier was
ever handed out, and every existing container was handed out. -/
theorem step_keeps (op : Op) (st : Environment × Engine) (hop : NonEmptyIds op.outside)
    (h1 : st.1.id ≠ "" ↔ st.2.created ≠ [])
    (h2 : ∀ c ∈ st.2.containers, c ∈ st.2.created) :
    ((step st op).1.id ≠ "" ↔ (step st op).2.created ≠ []) ∧
    (∀ c ∈ (step st op).2.containers, c ∈ (step st op).2.created) := by
  cases op with
  | start o =>
    obtain ⟨p, c, j, P, n, -, -, -, -, hlow, hhigh, -, -, -⟩ := Start_shape o st.1 st.2
    simp only [step]
    rcases Nat.lt_or_ge n 5 with hn | hn
    · obtain ⟨he, hc, hcr⟩ := hlow (by omega)
      rw [he, hc, hcr]
      simpa using ⟨h1, h2⟩
    · obtain ⟨hok, he, hc, hcr⟩ := hhigh hn
      have hne : c ≠ "" := hop _ _ _ _ c hok.2
      rw [he, hc, hcr]
      refine ⟨by simp [hne], fun d hd => ?_⟩
      rcases List.mem_cons.mp hd with rfl | hd
      · exact List.mem_cons_self _ _
      · exact List.mem_cons_of_mem _ (h2 d hd)
  | stop o =>
    obtain ⟨he, hcr, hsub⟩ := Stop_state o st.1 st.2
    simp only [step]
    rw [he, hcr]
    exact ⟨h1, fun c hc => h2 c (hsub c hc)⟩

theorem run_keeps (ops : List Op) (st : Environment × Engine)
    (hops : ∀ op ∈ ops, NonEmptyIds op.outside)
    (h1 : st.1.id ≠ "" ↔ st.2.created ≠ [])
    (h2 : ∀ c ∈ st.2.containers, c ∈ st.2.created) :
    ((run ops st).1.id ≠ "" ↔ (run ops st).2.created ≠ []) ∧
    (∀ c ∈ (run ops st).2.containers, c ∈ (run ops st).2.created) := by
  induction ops generalizing st with
  | nil => exact ⟨h1, h2⟩
  | cons op rest ih =>
    have hk := step_keeps op st (hops op (List.mem_cons_self _ _)) h1 h2
    exact ih (step st op) (fun x hx => hops x (List.mem_cons_of_mem _ hx)) hk.1 hk.2

theorem Start_happy_value :
    ({} : Environment).Start happy {} =
      ((some { Host := "http://localhost:32768" }, none),
       { Image := "docker.io/rancher/k3s:v0.4.0", id := "k3s-1" },
       { calls := startCalls {} "8080/tcp" "k3s-1" sampleInspect "32768",
         containers := ["k3s-1"], created := ["k3s-1"] }) := by
  rw [Start_ready happy {} {} "8080/tcp" "k3s-1" sampleInspect "32768" okReady_happy]
  simp [sprintfHost, Environment.defaulted, DefaultImage]

/-- C6, counterexample: from an environment with an empty container id and an
engine without containers, `Start` succeeds (container "k3s-1" is created),
then `Stop` succeeds (the container is removed); afterwards no container
exists, yet the container id is still "k3s-1", so the invariant "the id is set
if and only if a created container exists" is false. -/
theorem id_kept_after_stop :
    (({} : Environment).Start happy {}).1 = (some { Host := "http://localhost:32768" }, none) ∧
    ((({} : Environment).Start happy {}).2.1.Stop happy
      (({} : Environment).Start happy {}).2.2).1 = none ∧
    (run [Op.start happy, Op.stop happy] ({}, {})).1.id = "k3s-1" ∧
    (run [Op.start happy, Op.stop happy] ({}, {})).2.containers = [] ∧
    ¬ IdIffExists (run [Op.start happy, Op.stop happy] ({}, {})) := by
  have hstop := Stop_removed happy { Image := "docker.io/rancher/k3s:v0.4.0", id := "k3s-1" }
    { calls := startCalls {} "8080/tcp" "k3s-1" sampleInspect "32768",
      containers := ["k3s-1"], created := ["k3s-1"] } rfl rfl rfl
  simp only [run, List.foldl, step, IdIffExists, Start_happy_value, hstop]
  simp

/-- C6, amended: from an environment with an empty container id and an engine
without containers, after every sequence of `Start` and `Stop` calls (the
engine never handing out an empty identifier) the container id is non-empty if
and only if a container has been created by the environment, removed since or
not; so whenever a created container exists the id is non-empty; and `Stop`
never changes the id. -/
theorem id_set_iff_created (ops : List Op) (e : Environment) (s : Engine)
    (he : e.id = "") (hc : s.containers = []) (hcr : s.created = [])
    (hops : ∀ op ∈ ops, NonEmptyIds op.outside) :
    ((run ops (e, s)).1.id ≠ "" ↔ (run ops (e, s)).2.created ≠ []) ∧
    ((run ops (e, s)).2.containers ≠ [] → (run ops (e, s)).1.id ≠ "") ∧
    (∀ o e1 s1, (Environment.Stop o e1 s1).2.1.id = e1.id) := by
  have hk := run_keeps ops (e, s) hops (by simp [he, hcr]) (by simp [hc])
  refine ⟨hk.1, fun hne => ?_, fun o e1 s1 => by rw [(Stop_state o e1 s1).1]⟩
  rw [hk.1]
  obtain ⟨c, hc⟩ := List.exists_mem_of_ne_nil _ hne
  exact List.ne_nil_of_mem (hk.2 c hc)

theorem NonEmptyIds_happy : NonEmptyIds happy := by
  intro cfg host net name id h
  simp [happy] at h
  rw [← h]
  decide

/-- Witness of the amended C6: after a successful `Start` and a successful
`Stop` the id is still set, and a container has been created. -/
theorem id_set_iff_created_witness :
    ((run [Op.start happy, Op.stop happy] ({}, {})).1.id ≠ "" ↔
      (run [Op.start happy, Op.stop happy] ({}, {})).2.created ≠ []) ∧
    ((run [Op.start happy, Op.stop happy] ({}, {})).2.containers ≠ [] →
      (run [Op.start happy, Op.stop happy] ({}, {})).1.id ≠ "") :=
  have h := id_set_iff_created [Op.start happy, Op.stop happy] {} {} rfl rfl rfl
    (by
      intro op hop
      simp at hop
      rcases hop with rfl | rfl <;> exact NonEmptyIds_happy)
  ⟨h.1, h.2.1⟩

end Envtest
